import Mathlib

/-!
# Verification of the Orbit dashboard core

Shallow embedding of the core components of the Orbit terminal dashboard
(`src/actions/mod.rs`, `src/core/state.rs`, `src/core/app.rs`,
`src/focus/mod.rs`) together with proofs and refutations of the
specification's claims about them.

Modelling conventions:

* machine integers are `Nat` (with explicit `% 2 ^ 32` / saturation
  where the Rust code uses wrapping casts or `saturating_*`);
* fallible Rust code returns `Except`;
* the concurrent pieces (the PTY reader thread, the focus timer task,
  the state store's lock/send ordering) are modelled as explicit traces
  of the messages or primitive events they produce, sequenced in the
  order the source produces them;
* wall-clock values (timestamps, durations) are opaque `Nat`
  parameters.

The file is organised as: all definitions first, then all theorems.
-/

namespace Orbit

/-! ## Definitions: `strip_ansi_codes` (src/actions/mod.rs, lines 326-351)

The Rust function walks the characters with a peekable iterator:

* on `'\x1b'`: if the next char is `'['` it consumes the `'['` and then
  consumes characters until (and including) the first ASCII-alphabetic
  one; otherwise only the escape char itself is dropped;
* `'\r'` is dropped;
* every other character is kept.

`skipEscapeBody` is the inner `while let Some(&next) = chars.peek()`
loop; `stripAnsiChars` is the outer loop, its `if c == '\x1b' / else if
c == '\r' / else` chain rendered as patterns on the head character.
`Char.isAlpha` matches Rust's `is_ascii_alphabetic` (both accept
exactly `A`-`Z` and `a`-`z`).
-/

/-- Inner loop of `strip_ansi_codes`: consume characters until the
consumed character is ASCII-alphabetic (end of the escape sequence). -/
def skipEscapeBody : List Char → List Char
  | [] => []
  | c :: rest => if c.isAlpha then rest else skipEscapeBody rest

/-- Outer loop of `strip_ansi_codes`, over the character list. -/
def stripAnsiChars : List Char → List Char
  | [] => []
  | '\x1b' :: '[' :: rest2 => stripAnsiChars (skipEscapeBody rest2)
  | '\x1b' :: [] => []
  | '\x1b' :: d :: rest2 => stripAnsiChars (d :: rest2)
  | '\r' :: rest => stripAnsiChars rest
  | c :: rest => c :: stripAnsiChars rest
termination_by l => l.length
decreasing_by
  · have hle : ∀ l : List Char, (skipEscapeBody l).length ≤ l.length := by
      intro l
      induction l with
      | nil => simp [skipEscapeBody]
      | cons a t ih =>
        by_cases ha : a.isAlpha
        · simp [skipEscapeBody, ha]
        · rw [skipEscapeBody, if_neg (by simp [ha])]
          simp only [List.length_cons]
          omega
    have h2 := hle rest2
    simp only [List.length_cons]
    omega
  · simp only [List.length_cons]
    omega
  · simp only [List.length_cons]
    omega
  · simp only [List.length_cons]
    omega

/-- `strip_ansi_codes` from src/actions/mod.rs. -/
def strip_ansi_codes (s : String) : String :=
  ⟨stripAnsiChars s.data⟩

/-! ## Definitions: the action execution pipeline
(src/actions/mod.rs, lines 143-323)

`execute_with_pty` opens a PTY, spawns `sh -c command` on the slave
side, clones a reader from the master, spawns a reader thread that
sends one `OutputLine::Stdout` per line read (stopping at end-of-file,
at the first read error, or when the channel closes), waits for the
child, drops the master, joins the reader and finally sends
`OutputLine::Exit(code)`.

The nondeterministic environment (which syscalls fail, what the reader
reads, the child's exit status) is packaged as a `PtyWorld`.  The
function's observable behaviour is the ordered list of messages sent to
the sink plus the returned value.  The reader thread's sends all happen
before the `Exit` message is sent (the source joins the reader before
sending `Exit`), so the sequential trace below is the order of the
source.  A read error (`Err(_) => break`) is a `none` entry in
`readLines`; entries after it are never read.  Channel sends are
modelled as always accepted (a closed channel only truncates the trace
earlier, which is subsumed by choosing a shorter `readLines`).
-/

/-- `OutputLine` from src/actions/mod.rs, lines 153-158. -/
inductive OutputLine where
  | stdout (text : String)
  | stderr (text : String)
  | exit (code : Int)
  deriving DecidableEq, Repr

/-- The failure points of `execute_with_pty`, in source order: `openpty?`
(line 252), `spawn_command?` (line 276), `try_clone_reader?` (line 282)
and `child.wait()?` (line 311). -/
inductive PtyError where
  | openpty
  | spawnCommand
  | tryCloneReader
  | waitChild
  deriving DecidableEq, Repr

/-- Environment of one `execute_with_pty` run: which fallible calls
succeed, the lines produced by the PTY master (a `none` entry is a read
error, which stops the reader), and the child's exit status (`u32`). -/
structure PtyWorld where
  openptyOk : Bool
  spawnOk : Bool
  cloneReaderOk : Bool
  waitOk : Bool
  exitStatus : Nat
  readLines : List (Option String)
  deriving DecidableEq, Repr

/-- The line actually sent for one read line (src/actions/mod.rs, lines
291-299): the ANSI-stripped content — unless the stripped content is
empty, in which case the *original* content is sent. -/
def pushedLine (content : String) : String :=
  let clean_content := strip_ansi_codes content
  if clean_content.isEmpty then content else clean_content

/-- The reader thread's sends (src/actions/mod.rs, lines 286-308): one
`Stdout` per successfully read line, stopping at the first read error
or at end-of-file. -/
def readerThread : List (Option String) → List OutputLine
  | [] => []
  | none :: _ => []
  | some content :: rest => OutputLine.stdout (pushedLine content) :: readerThread rest

/-- Rust's `as i32` cast of a `u32` value (`status.exit_code() as i32`,
src/actions/mod.rs line 312). -/
def u32_as_i32 (n : Nat) : Int :=
  let m : Nat := n % 2 ^ 32
  if m < 2 ^ 31 then (m : Int) else (m : Int) - 2 ^ 32

/-- `execute_with_pty` (src/actions/mod.rs, lines 244-323): the ordered
trace of messages sent to `output_tx` paired with the returned value.
On an `openpty`/`spawn_command`/`try_clone_reader` failure nothing has
been sent (the reader thread is spawned only after all three succeed).
On a `wait` failure the function early-returns; the detached reader
still drains the master (dropped when the function returns), but no
`Exit` message is ever sent. -/
def execute_with_pty (w : PtyWorld) : List OutputLine × Except PtyError (Option Int) :=
  if !w.openptyOk then ([], .error .openpty)
  else if !w.spawnOk then ([], .error .spawnCommand)
  else if !w.cloneReaderOk then ([], .error .tryCloneReader)
  else
    let sent := readerThread w.readLines
    if !w.waitOk then (sent, .error .waitChild)
    else
      let exit_code := u32_as_i32 w.exitStatus
      (sent ++ [OutputLine.exit exit_code], .ok (some exit_code))

/-- `ActionResult` from src/actions/mod.rs, lines 144-150. -/
structure ActionResult where
  action_id : String
  exit_code : Option Int
  duration_ms : Nat
  success : Bool
  deriving DecidableEq, Repr

/-- `ActionExecutor::execute` (src/actions/mod.rs, lines 185-216): runs
`execute_with_pty` and, on success, builds the `ActionResult` with
`success = result.0.map(|c| c == 0).unwrap_or(false)`.  The sink trace
is carried alongside the `Result`. -/
def executeRun (actionId : String) (durationMs : Nat) (w : PtyWorld) :
    List OutputLine × Except PtyError ActionResult :=
  let (sent, r) := execute_with_pty w
  match r with
  | .error e => (sent, .error e)
  | .ok code =>
      (sent,
        .ok { action_id := actionId
              exit_code := code
              duration_ms := durationMs
              success := (code.map (fun c => c == 0)).getD false })

/-! ## Definitions: the state store's update primitive
(src/core/state.rs, lines 406-416)

```rust
pub fn update<F, R>(&self, mutator: F) -> R
where F: FnOnce(&mut AppState) -> (R, Option<StateChange>) {
    let mut state = self.state.write();
    let (result, change) = mutator(&mut state);
    if let Some(change) = change {
        let _ = self.change_tx.send(change);
    }
    result
}
```

The write guard `state` is dropped at the end of the function body, so
the `send` — executed while `state` is live — happens between the
acquisition and the release of the exclusive lock.  `updateTrace` is
the ordered trace of these four primitive events for one call,
parametrised by whether the mutator returned a change notice.
-/

/-- The primitive events of one `StateStore::update` call. -/
inductive StoreEvent where
  | acquireWrite
  | applyMutator
  | broadcastSend
  | releaseWrite
  deriving DecidableEq, Repr

/-- Ordered event trace of one `StateStore::update` call, in source
order: acquire the write lock, run the mutator, send the notice iff the
mutator returned one, and release the lock at end of scope. -/
def StateStore.updateTrace (hasChange : Bool) : List StoreEvent :=
  [StoreEvent.acquireWrite, StoreEvent.applyMutator]
    ++ (if hasChange then [StoreEvent.broadcastSend] else [])
    ++ [StoreEvent.releaseWrite]

/-! ## Definitions: panel state and the output buffer
(src/core/state.rs, lines 17-367)

Collaborator data (`ContainerInfo`, `ActivePort`, …) is out of the
specified core; only the identity of elements matters to the panel
logic, so each is modelled by a minimal carrier keeping the fields the
core reads.
-/

/-- `OutputStream` from src/core/state.rs, lines 212-217. -/
inductive OutputStream where
  | stdout
  | stderr
  | system
  deriving DecidableEq, Repr

/-- `OutputLine` of the output *panel* (src/core/state.rs, lines
205-210); its `chrono` timestamp is an opaque `Nat`. -/
structure PanelLine where
  content : String
  timestamp : Nat
  stream : OutputStream
  deriving DecidableEq, Repr

/-- `OutputPanelState` from src/core/state.rs, lines 190-197. -/
structure OutputPanelState where
  lines : List PanelLine
  scroll_offset : Nat
  auto_scroll : Bool
  max_lines : Nat
  deriving DecidableEq, Repr

/-- `OutputPanelState::new` (src/core/state.rs, lines 220-227). -/
def OutputPanelState.new : OutputPanelState :=
  { lines := [], scroll_offset := 0, auto_scroll := true, max_lines := 1000 }

/-- `OutputPanelState::push` (src/core/state.rs, lines 229-241):
append the new line, pop the front if over `max_lines`, and follow the
tail when `auto_scroll` is on (`scroll_offset = len.saturating_sub(1)`,
with the length *after* the pop). -/
def OutputPanelState.push (st : OutputPanelState) (content : String)
    (stream : OutputStream) (now : Nat) : OutputPanelState :=
  let lines0 := st.lines ++ [{ content := content, timestamp := now, stream := stream }]
  let lines1 := if lines0.length > st.max_lines then lines0.tail else lines0
  let offset := if st.auto_scroll then lines1.length - 1 else st.scroll_offset
  { st with lines := lines1, scroll_offset := offset }

/-- Carrier for `ContainerInfo` (container collaborator data). -/
structure ContainerInfo where
  id : String
  deriving DecidableEq, Repr

/-- Carrier for `ActivePort` (port collaborator data). -/
structure ActivePort where
  port : Nat
  deriving DecidableEq, Repr

/-- Carrier for `PortConflict` (port collaborator data). -/
structure PortConflict where
  port : Nat
  deriving DecidableEq, Repr

/-- `EnvVariable` (src/core/state.rs, lines 153-160), keeping the
fields panel logic reads. -/
structure EnvVariable where
  name : String
  value : Option String
  required : Bool
  deriving DecidableEq, Repr

/-- `Action` (src/actions/mod.rs, lines 14-27), keeping the fields the
panel filter reads. -/
structure Action where
  id : String
  name : String
  command : String
  description : Option String
  deriving DecidableEq, Repr

/-- `DockerPanelState` from src/core/state.rs, lines 81-90 (the
`chrono` `last_updated` field is an opaque optional `Nat`). -/
structure DockerPanelState where
  containers : List ContainerInfo
  expanded : Bool
  selected_index : Nat
  loading : Bool
  last_updated : Option Nat
  error : Option String
  deriving DecidableEq, Repr

/-- `PortPanelState` from src/core/state.rs, lines 92-100.  An
`ExpectedPort` is carried as its port number. -/
structure PortPanelState where
  expected_ports : List Nat
  active_ports : List ActivePort
  conflicts : List PortConflict
  selected_index : Nat
  loading : Bool
  deriving DecidableEq, Repr

/-- `ActionPanelState` from src/core/state.rs, lines 102-109. -/
structure ActionPanelState where
  actions : List Action
  selected_index : Nat
  filter : String
  filtered_indices : List Nat
  deriving DecidableEq, Repr

/-- `EnvPanelState` from src/core/state.rs, lines 145-151.  The source
field `variables` is spelled `vars` here (`variables` is a reserved
word in Lean). -/
structure EnvPanelState where
  vars : List EnvVariable
  selected_index : Nat
  show_values : Bool
  deriving DecidableEq, Repr

/-- Rust's `str::contains` (substring test) on character lists. -/
def containsSub (pat : List Char) : List Char → Bool
  | [] => pat.isEmpty
  | c :: rest => pat.isPrefixOf (c :: rest) || containsSub pat rest

/-- The filter test of `ActionPanelState::update_filter`
(src/core/state.rs, lines 122-130): name, command or description
contains the lowercased filter. -/
def actionMatchesFilter (filter_lower : String) (a : Action) : Bool :=
  containsSub filter_lower.data a.name.toLower.data
    || containsSub filter_lower.data a.command.toLower.data
    || (match a.description with
        | some d => containsSub filter_lower.data d.toLower.data
        | none => false)

/-- `ActionPanelState::update_filter` (src/core/state.rs, lines
111-136): recompute `filtered_indices` (all indices on an empty filter)
and reset `selected_index` to 0. -/
def ActionPanelState.update_filter (st : ActionPanelState) (filter : String) :
    ActionPanelState :=
  let filter_lower := filter.toLower
  let filtered_indices :=
    if filter.isEmpty then List.range st.actions.length
    else ((st.actions.enum.filter (fun p => actionMatchesFilter filter_lower p.2)).map
      (fun p => p.1))
  { st with filter := filter, filtered_indices := filtered_indices, selected_index := 0 }

/-- `FocusedPanel` from src/core/state.rs, lines 48-57. -/
inductive FocusedPanel where
  | actions
  | docker
  | ports
  | env
  | output
  deriving DecidableEq, Repr

/-- `FocusedPanel::next` (src/core/state.rs, lines 60-68). -/
def FocusedPanel.next : FocusedPanel → FocusedPanel
  | .actions => .docker
  | .docker => .ports
  | .ports => .env
  | .env => .output
  | .output => .actions

/-- `FocusedPanel::prev` (src/core/state.rs, lines 70-78). -/
def FocusedPanel.prev : FocusedPanel → FocusedPanel
  | .actions => .output
  | .docker => .actions
  | .ports => .docker
  | .env => .ports
  | .output => .env

/-- `PanelStates` (src/core/state.rs, lines 307-316), restricted to the
panels that carry a selection or scroll position (the metrics panel has
neither). -/
structure PanelStates where
  docker : DockerPanelState
  ports : PortPanelState
  actions : ActionPanelState
  env : EnvPanelState
  output : OutputPanelState
  deriving DecidableEq, Repr

/-- The slice of `AppState` the navigation logic touches: the panels
plus the focused panel. -/
structure AppNavState where
  panels : PanelStates
  focus_panel : FocusedPanel
  deriving DecidableEq, Repr

/-- The `Default` panel states used by `AppState::new`
(src/core/state.rs, lines 333-347): every collection empty, every index
0, output buffer from `OutputPanelState::new`. -/
def initialAppNavState : AppNavState :=
  { panels :=
      { docker := { containers := [], expanded := false, selected_index := 0,
                    loading := false, last_updated := none, error := none }
        ports := { expected_ports := [], active_ports := [], conflicts := [],
                   selected_index := 0, loading := false }
        actions := { actions := [], selected_index := 0, filter := "",
                     filtered_indices := [] }
        env := { vars := [], selected_index := 0, show_values := false }
        output := OutputPanelState.new }
    focus_panel := .actions }

/-- `App::navigate_up` (src/core/app.rs, lines 572-605): decrement the
focused panel's index when positive; for the output panel move the
scroll offset up and disable autoscroll. -/
def navigate_up (s : AppNavState) : AppNavState :=
  let p := s.panels
  match s.focus_panel with
  | .actions =>
      if p.actions.selected_index > 0 then
        { s with panels := { p with actions :=
            { p.actions with selected_index := p.actions.selected_index - 1 } } }
      else s
  | .docker =>
      if p.docker.selected_index > 0 then
        { s with panels := { p with docker :=
            { p.docker with selected_index := p.docker.selected_index - 1 } } }
      else s
  | .ports =>
      if p.ports.selected_index > 0 then
        { s with panels := { p with ports :=
            { p.ports with selected_index := p.ports.selected_index - 1 } } }
      else s
  | .env =>
      if p.env.selected_index > 0 then
        { s with panels := { p with env :=
            { p.env with selected_index := p.env.selected_index - 1 } } }
      else s
  | .output =>
      if p.output.scroll_offset > 0 then
        { s with panels := { p with output :=
            { p.output with scroll_offset := p.output.scroll_offset - 1,
                            auto_scroll := false } } }
      else s

/-- `App::navigate_down` (src/core/app.rs, lines 607-644): increment
the focused panel's index when below `len.saturating_sub(1)` of its
collection (`filtered_indices` / `containers` / `active_ports` /
`variables` / output `lines`). -/
def navigate_down (s : AppNavState) : AppNavState :=
  let p := s.panels
  match s.focus_panel with
  | .actions =>
      let mx := p.actions.filtered_indices.length - 1
      if p.actions.selected_index < mx then
        { s with panels := { p with actions :=
            { p.actions with selected_index := p.actions.selected_index + 1 } } }
      else s
  | .docker =>
      let mx := p.docker.containers.length - 1
      if p.docker.selected_index < mx then
        { s with panels := { p with docker :=
            { p.docker with selected_index := p.docker.selected_index + 1 } } }
      else s
  | .ports =>
      let mx := p.ports.active_ports.length - 1
      if p.ports.selected_index < mx then
        { s with panels := { p with ports :=
            { p.ports with selected_index := p.ports.selected_index + 1 } } }
      else s
  | .env =>
      let mx := p.env.vars.length - 1
      if p.env.selected_index < mx then
        { s with panels := { p with env :=
            { p.env with selected_index := p.env.selected_index + 1 } } }
      else s
  | .output =>
      let mx := p.output.lines.length - 1
      if p.output.scroll_offset < mx then
        { s with panels := { p with output :=
            { p.output with scroll_offset := p.output.scroll_offset + 1 } } }
      else s

/-- Palette Up (src/core/app.rs, lines 453-461): decrement the actions
selection when positive, regardless of panel focus. -/
def palette_up (s : AppNavState) : AppNavState :=
  let p := s.panels
  if p.actions.selected_index > 0 then
    { s with panels := { p with actions :=
        { p.actions with selected_index := p.actions.selected_index - 1 } } }
  else s

/-- Palette Down (src/core/app.rs, lines 463-472): increment the
actions selection when below `filtered_indices.len().saturating_sub(1)`. -/
def palette_down (s : AppNavState) : AppNavState :=
  let p := s.panels
  let mx := p.actions.filtered_indices.length - 1
  if p.actions.selected_index < mx then
    { s with panels := { p with actions :=
        { p.actions with selected_index := p.actions.selected_index + 1 } } }
  else s

/-- Palette character input (src/core/app.rs, lines 476-486): append
the char to the filter and rerun `update_filter`. -/
def palette_char (s : AppNavState) (c : Char) : AppNavState :=
  let p := s.panels
  let actions1 := p.actions.update_filter (p.actions.filter.push c)
  { s with panels := { p with actions := actions1 } }

/-- Palette backspace (src/core/app.rs, lines 487-497): drop the last
filter char (`String::pop`) and rerun `update_filter`. -/
def palette_backspace (s : AppNavState) : AppNavState :=
  let p := s.panels
  let actions1 := p.actions.update_filter ⟨p.actions.filter.data.dropLast⟩
  { s with panels := { p with actions := actions1 } }

/-- `App::refresh_docker`, success path (src/core/app.rs, lines
907-942): set `loading`/clear `error`, then store the new container
list and clear `loading`.  The selection index is *not* touched. -/
def refresh_docker_ok (s : AppNavState) (containers : List ContainerInfo) : AppNavState :=
  let p := s.panels
  { s with panels := { p with docker :=
      { p.docker with containers := containers, loading := false, error := none } } }

/-- `App::refresh_ports`, success path (src/core/app.rs, lines
874-905): store the new active ports and conflicts and clear `loading`.
The selection index is *not* touched. -/
def refresh_ports_ok (s : AppNavState) (active : List ActivePort)
    (conflicts : List PortConflict) : AppNavState :=
  let p := s.panels
  { s with panels := { p with ports :=
      { p.ports with active_ports := active, conflicts := conflicts, loading := false } } }

/-- `App::detect_project`, success path (src/core/app.rs, lines
141-215): push a system line, replace the action list and rerun
`update_filter("")` (resetting its selection), replace the env
variables and expected ports (*without* touching the env selection),
and push a completion line.  Message texts abbreviated; timestamps 0. -/
def detect_project_ok (s : AppNavState) (actions : List Action)
    (envVars : List EnvVariable) (expected : List Nat) : AppNavState :=
  let p := s.panels
  let output1 := p.output.push "Detecting project..." .system 0
  let actions1 := ({ p.actions with actions := actions } : ActionPanelState).update_filter ""
  let output2 := output1.push "Project detected" .system 0
  { s with panels := { p with
      actions := actions1
      env := { p.env with vars := envVars }
      ports := { p.ports with expected_ports := expected }
      output := output2 } }

/-- The operations of the App orchestrator that touch panel selection
state: Tab/Shift-Tab, Up/Down in the dashboard, Up/Down and text edits
in the palette, and the background refreshes that replace a panel's
collection. -/
inductive AppOp where
  | tab
  | backtab
  | navUp
  | navDown
  | paletteUp
  | paletteDown
  | paletteChar (c : Char)
  | paletteBackspace
  | refreshDocker (containers : List ContainerInfo)
  | refreshPorts (active : List ActivePort) (conflicts : List PortConflict)
  | detectProject (actions : List Action) (envVars : List EnvVariable) (expected : List Nat)

/-- Dispatch one orchestrator operation (src/core/app.rs). -/
def applyOp (s : AppNavState) : AppOp → AppNavState
  | .tab => { s with focus_panel := s.focus_panel.next }
  | .backtab => { s with focus_panel := s.focus_panel.prev }
  | .navUp => navigate_up s
  | .navDown => navigate_down s
  | .paletteUp => palette_up s
  | .paletteDown => palette_down s
  | .paletteChar c => palette_char s c
  | .paletteBackspace => palette_backspace s
  | .refreshDocker containers => refresh_docker_ok s containers
  | .refreshPorts active conflicts => refresh_ports_ok s active conflicts
  | .detectProject actions envVars expected => detect_project_ok s actions envVars expected

/-- The navigation-key and filter-update operations (no background
refreshes). -/
def AppOp.isNavFilter : AppOp → Bool
  | .tab | .backtab | .navUp | .navDown
  | .paletteUp | .paletteDown | .paletteChar _ | .paletteBackspace => true
  | _ => false

/-- The claimed selection invariant: each panel's `selected_index` lies
in `[0, len − 1]` of its collection, and is 0 when the collection is
empty (in `Nat`, `i ≤ len - 1` says exactly that). -/
def selectionInv (p : PanelStates) : Prop :=
  p.actions.selected_index ≤ p.actions.filtered_indices.length - 1 ∧
  p.docker.selected_index ≤ p.docker.containers.length - 1 ∧
  p.ports.selected_index ≤ p.ports.active_ports.length - 1 ∧
  p.env.selected_index ≤ p.env.vars.length - 1

instance (p : PanelStates) : Decidable (selectionInv p) := by
  unfold selectionInv
  infer_instance

/-- Operation sequence refuting the unrestricted invariant claim: fill
the docker panel with two containers, focus it, move the selection to
index 1, then let a background refresh shrink the container list to
empty. -/
def c2BadOps : List AppOp :=
  [AppOp.refreshDocker [{ id := "c1" }, { id := "c2" }],
   AppOp.tab, AppOp.navDown,
   AppOp.refreshDocker []]

/-! ## Definitions: the focus timer task (src/focus/mod.rs, lines 126-158)

`timer_task` loops, racing a 1-second ticker against a oneshot
cancellation channel.  On a tick: increment `elapsed`, send
`FocusTimerTick { remaining }`, and if the countdown is finite and
`elapsed >= total_seconds`, send `FocusModeEnded` and stop.  On the
cancellation signal: stop silently.

The race is resolved by a schedule: `cancelAt = some k` means the
cancellation branch of the `select!` wins at loop iteration `k`
(0-based, after `k` ticks have been processed); `none` means the
ticker always wins.  `fuel` bounds the number of iterations modelled,
so an indefinite session is a family of traces, one per fuel.
`elapsed` is `Nat` (its `u32` overflow is unreachable within any
finite countdown and unread in an indefinite one).
-/

/-- A one-line output panel at its capacity bound (a concrete state for
instantiating the bounded-buffer theorem). -/
def tinyFullOutputPanel : OutputPanelState :=
  { lines := [{ content := "old", timestamp := 0, stream := OutputStream.system }],
    scroll_offset := 0, auto_scroll := true, max_lines := 1 }

/-- The events `timer_task` sends on the event bus. -/
inductive FocusEvent where
  | focusTimerTick (remaining : Nat)
  | focusModeEnded
  deriving DecidableEq, Repr

/-- `duration_minutes.saturating_mul(60)` on `u32`
(src/focus/mod.rs, line 131). -/
def totalSecondsOf (durationMinutes : Nat) : Nat :=
  min (durationMinutes * 60) (2 ^ 32 - 1)

/-- One bounded run of `FocusModeController::timer_task`
(src/focus/mod.rs, lines 126-158): the list of events sent and whether
the loop stopped (`true`) or merely ran out of modelling fuel
(`false`). -/
def timer_task (totalSeconds : Nat) :
    Option Nat → Nat → Nat → List FocusEvent × Bool
  | _, _, 0 => ([], false)
  | some 0, _, _ + 1 => ([], true)
  | cancelAt, elapsed, fuel + 1 =>
      let elapsed1 := elapsed + 1
      let indefinite := totalSeconds == 0
      let remaining := if indefinite then 0 else totalSeconds - elapsed1
      if !indefinite && decide (totalSeconds ≤ elapsed1) then
        ([FocusEvent.focusTimerTick remaining, FocusEvent.focusModeEnded], true)
      else
        let next := timer_task totalSeconds (cancelAt.map (fun k => k - 1)) elapsed1 fuel
        (FocusEvent.focusTimerTick remaining :: next.1, next.2)

end Orbit

open Orbit

/-! ## Theorems: escape-sequence stripping -/

/-- Every character surviving the strip is neither the escape character
nor a carriage return. -/
theorem stripAnsiChars_mem (l : List Char) (c : Char) (hc : c ∈ stripAnsiChars l) :
    c ≠ '\x1b' ∧ c ≠ '\r' := by
  induction l using stripAnsiChars.induct with
  | case1 => simp [stripAnsiChars] at hc
  | case2 rest2 ih =>
    rw [stripAnsiChars.eq_2] at hc
    exact ih hc
  | case3 => simp [stripAnsiChars] at hc
  | case4 d rest2 hd ih =>
    rw [stripAnsiChars.eq_4 d rest2 hd] at hc
    exact ih hc
  | case5 rest ih =>
    rw [stripAnsiChars.eq_5] at hc
    exact ih hc
  | case6 a rest h1 h2 h3 h4 ih =>
    rw [stripAnsiChars.eq_6 a rest h1 h2 h3 h4] at hc
    rcases List.mem_cons.mp hc with hc | hc
    · subst hc
      refine ⟨fun he => ?_, fun hr => h4 hr⟩
      cases rest with
      | nil => exact h2 he rfl
      | cons d r => exact h3 d r he rfl
    · exact ih hc

/-- Stripping is the identity on a list containing no escape and no
carriage-return characters. -/
theorem stripAnsiChars_of_clean (l : List Char)
    (h : ∀ c ∈ l, c ≠ '\x1b' ∧ c ≠ '\r') : stripAnsiChars l = l := by
  induction l with
  | nil => simp [stripAnsiChars]
  | cons c rest ih =>
    have hc := h c (by simp)
    rw [stripAnsiChars.eq_6 c rest
      (fun _ he _ => hc.1 he) (fun he _ => hc.1 he) (fun _ _ he _ => hc.1 he)
      (fun hr => hc.2 hr)]
    exact congrArg (c :: ·) (ih fun d hd => h d (by simp [hd]))

/-- Stripping a stripped list changes nothing. -/
theorem stripAnsiChars_idem (l : List Char) :
    stripAnsiChars (stripAnsiChars l) = stripAnsiChars l :=
  stripAnsiChars_of_clean _ (fun c hc => stripAnsiChars_mem l c hc)

/-- C9: escape-sequence stripping is idempotent —
`strip_ansi_codes (strip_ansi_codes s) = strip_ansi_codes s` for every
string `s` — and the stripped string contains no escape (0x1b)
characters and no carriage-return characters. -/
theorem c9_strip_idempotent_and_clean (s : String) :
    strip_ansi_codes (strip_ansi_codes s) = strip_ansi_codes s ∧
    '\x1b' ∉ (strip_ansi_codes s).data ∧
    '\r' ∉ (strip_ansi_codes s).data := by
  refine ⟨?_, fun h => (stripAnsiChars_mem s.data _ h).1 rfl,
    fun h => (stripAnsiChars_mem s.data _ h).2 rfl⟩
  show (⟨stripAnsiChars (stripAnsiChars s.data)⟩ : String) = _
  rw [stripAnsiChars_idem]
  rfl

/-! ## Theorems: C1, the reader path's pushed lines -/

/-- Every `Stdout` message the reader thread sends comes from a read
line, transformed by `pushedLine`. -/
theorem readerThread_stdout_mem (lines : List (Option String)) (s : String)
    (h : OutputLine.stdout s ∈ readerThread lines) :
    ∃ content, some content ∈ lines ∧ s = pushedLine content := by
  induction lines with
  | nil => simp [readerThread] at h
  | cons hd tl ih =>
    cases hd with
    | none => simp [readerThread] at h
    | some content =>
      rw [readerThread] at h
      rcases List.mem_cons.mp h with h | h
      · exact ⟨content, by simp, by simpa using h⟩
      · obtain ⟨c, hc, hs⟩ := ih h
        exact ⟨c, by simp [hc], hs⟩

/-- C1 counterexample: the claim says the pushed line is always the
stripped line (empty stripped lines included).  For the read line
`"\x1b[2J"` (a pure escape sequence) stripping yields `""`, yet the
reader path pushes the original, unstripped `"\x1b[2J"`. -/
theorem c1_counterexample :
    strip_ansi_codes "\x1b[2J" = "" ∧
    (execute_with_pty
        { openptyOk := true, spawnOk := true, cloneReaderOk := true, waitOk := true,
          exitStatus := 0, readLines := [some "\x1b[2J"] }).1 =
      [OutputLine.stdout "\x1b[2J", OutputLine.exit 0] ∧
    ("\x1b[2J" : String) ≠ "" := by
  refine ⟨?_, ?_, by decide⟩
  · simp [strip_ansi_codes, stripAnsiChars, skipEscapeBody]
  · simp [execute_with_pty, readerThread, pushedLine, strip_ansi_codes, stripAnsiChars,
      skipEscapeBody, u32_as_i32, String.isEmpty]

/-- C1 (amended): every `Stdout` line pushed by the reader path comes
from a line read from the PTY; the pushed text is the stripped content
whenever stripping leaves a non-empty string, and is the ORIGINAL
(unstripped) content whenever stripping yields the empty string — so
genuinely blank lines are still pushed, but a line consisting solely of
escape/control sequences is pushed unstripped. -/
theorem c1_amended_reader_pushes_stripped (w : PtyWorld) (s : String)
    (h : OutputLine.stdout s ∈ (execute_with_pty w).1) :
    ∃ content, some content ∈ w.readLines ∧ s = pushedLine content ∧
      ((strip_ansi_codes content).isEmpty = false → s = strip_ansi_codes content) ∧
      ((strip_ansi_codes content).isEmpty = true → s = content) := by
  have hmem : OutputLine.stdout s ∈ readerThread w.readLines := by
    obtain ⟨o, sp, cr, wa, ec, rl⟩ := w
    cases o <;> cases sp <;> cases cr <;> cases wa <;>
      simp_all [execute_with_pty]
  obtain ⟨content, hc, hs⟩ := readerThread_stdout_mem _ _ hmem
  refine ⟨content, hc, hs, fun he => ?_, fun he => ?_⟩
  · rw [hs, pushedLine]
    simp [he]
  · rw [hs, pushedLine]
    simp [he]

/-- Concrete instantiation of the amended C1 theorem: a successful run
reading the single line `"hi"`. -/
theorem c1_amended_witness :
    ∃ content,
      some content ∈ ({ openptyOk := true, spawnOk := true, cloneReaderOk := true,
                        waitOk := true, exitStatus := 0,
                        readLines := [some "hi"] } : PtyWorld).readLines ∧
      "hi" = pushedLine content ∧
      ((strip_ansi_codes content).isEmpty = false → "hi" = strip_ansi_codes content) ∧
      ((strip_ansi_codes content).isEmpty = true → "hi" = content) :=
  c1_amended_reader_pushes_stripped _ "hi"
    (by simp [execute_with_pty, readerThread, pushedLine, strip_ansi_codes, stripAnsiChars,
      skipEscapeBody, u32_as_i32, String.isEmpty])

/-! ## Theorems: C4/C5/C6, the execution pipeline's sink and result -/

/-- The sink trace of `execute_with_pty` is empty (allocation / spawn /
clone failure), the reader output alone (wait failure), or the reader
output followed by the `Exit` message (success). -/
theorem execute_with_pty_trace (w : PtyWorld) :
    (execute_with_pty w).1 = [] ∨
    (execute_with_pty w).1 = readerThread w.readLines ∨
    (execute_with_pty w).1 =
      readerThread w.readLines ++ [OutputLine.exit (u32_as_i32 w.exitStatus)] := by
  obtain ⟨o, sp, cr, wa, ec, rl⟩ := w
  cases o <;> cases sp <;> cases cr <;> cases wa <;> simp [execute_with_pty]

/-- Every message the reader thread sends is a `Stdout` line. -/
theorem readerThread_all_stdout (lines : List (Option String)) (m : OutputLine)
    (h : m ∈ readerThread lines) : ∃ s, m = OutputLine.stdout s := by
  induction lines with
  | nil => simp [readerThread] at h
  | cons hd tl ih =>
    cases hd with
    | none => simp [readerThread] at h
    | some content =>
      rw [readerThread] at h
      rcases List.mem_cons.mp h with h | h
      · exact ⟨_, h⟩
      · exact ih h

/-- C4: every message `execute_with_pty` sends to the output sink is
either a `Stdout` line or the terminal `Exit` line; the `Stderr`
variant of `OutputLine` is never sent by this path. -/
theorem c4_no_stderr_sent (w : PtyWorld) (m : OutputLine)
    (h : m ∈ (execute_with_pty w).1) :
    (∃ s, m = OutputLine.stdout s) ∨ (∃ code, m = OutputLine.exit code) := by
  rcases execute_with_pty_trace w with ht | ht | ht
  · rw [ht] at h
    simp at h
  · rw [ht] at h
    exact Or.inl (readerThread_all_stdout _ _ h)
  · rw [ht] at h
    rcases List.mem_append.mp h with h1 | h1
    · exact Or.inl (readerThread_all_stdout _ _ h1)
    · exact Or.inr ⟨_, by simpa using h1⟩

/-- Concrete instantiation of C4: a successful run reading `"hi"`, at
its first sink message. -/
theorem c4_witness :
    (∃ s, OutputLine.stdout "hi" = OutputLine.stdout s) ∨
    (∃ code, OutputLine.stdout "hi" = OutputLine.exit code) :=
  c4_no_stderr_sent
    { openptyOk := true, spawnOk := true, cloneReaderOk := true, waitOk := true,
      exitStatus := 0, readLines := [some "hi"] } _
    (by simp [execute_with_pty, readerThread, pushedLine, strip_ansi_codes, stripAnsiChars,
      skipEscapeBody, String.isEmpty])

/-- C5 counterexample: with pseudo-terminal allocation and process spawn
both succeeding but the `child.wait()` call failing, `execute` returns
an error rather than an `Ok` `ActionResult` — refuting "if allocation
and spawn succeed, execute returns Ok". -/
theorem c5_counterexample :
    ({ openptyOk := true, spawnOk := true, cloneReaderOk := true, waitOk := false,
       exitStatus := 0, readLines := [] } : PtyWorld).openptyOk = true ∧
    ({ openptyOk := true, spawnOk := true, cloneReaderOk := true, waitOk := false,
       exitStatus := 0, readLines := [] } : PtyWorld).spawnOk = true ∧
    (executeRun "a" 0
        { openptyOk := true, spawnOk := true, cloneReaderOk := true, waitOk := false,
          exitStatus := 0, readLines := [] }).2 = Except.error PtyError.waitChild :=
  ⟨rfl, rfl, rfl⟩

/-- C5 (amended): if pseudo-terminal allocation or process spawn fails,
`execute` returns an error and no `OutputLine` has been sent to the
sink; if allocation, spawn, the reader-handle clone and the wait for
the child all succeed, `execute` returns `Ok` with an `ActionResult`
carrying the child's exit code — for every `readLines`, i.e. even when
a read error stopped the reader early. -/
theorem c5_failure_aborts_and_success_reports (aid : String) (d : Nat) (w : PtyWorld) :
    (w.openptyOk = false ∨ w.spawnOk = false →
      (executeRun aid d w).1 = [] ∧ ∃ e, (executeRun aid d w).2 = Except.error e) ∧
    (w.openptyOk = true → w.spawnOk = true → w.cloneReaderOk = true → w.waitOk = true →
      ∃ r, (executeRun aid d w).2 = Except.ok r ∧
        r.exit_code = some (u32_as_i32 w.exitStatus)) := by
  obtain ⟨o, sp, cr, wa, ec, rl⟩ := w
  constructor
  · rintro (h | h) <;> subst h
    · exact ⟨rfl, ⟨_, rfl⟩⟩
    · cases o
      · exact ⟨rfl, ⟨_, rfl⟩⟩
      · exact ⟨rfl, ⟨_, rfl⟩⟩
  · intro h1 h2 h3 h4
    subst h1; subst h2; subst h3; subst h4
    exact ⟨_, rfl, rfl⟩

/-- Concrete instantiation of the amended C5 theorem: a spawn failure
(nothing sent, error returned) and a fully successful run (whose result
carries exit code 7). -/
theorem c5_witness :
    ((executeRun "a" 5
        { openptyOk := true, spawnOk := false, cloneReaderOk := true, waitOk := true,
          exitStatus := 0, readLines := [some "x"] }).1 = [] ∧
      ∃ e, (executeRun "a" 5
        { openptyOk := true, spawnOk := false, cloneReaderOk := true, waitOk := true,
          exitStatus := 0, readLines := [some "x"] }).2 = Except.error e) ∧
    (∃ r, (executeRun "a" 5
        { openptyOk := true, spawnOk := true, cloneReaderOk := true, waitOk := true,
          exitStatus := 7, readLines := [] }).2 = Except.ok r ∧
      r.exit_code = some (u32_as_i32 7)) :=
  ⟨(c5_failure_aborts_and_success_reports "a" 5
      { openptyOk := true, spawnOk := false, cloneReaderOk := true, waitOk := true,
        exitStatus := 0, readLines := [some "x"] }).1 (Or.inr rfl),
    (c5_failure_aborts_and_success_reports "a" 5
      { openptyOk := true, spawnOk := true, cloneReaderOk := true, waitOk := true,
        exitStatus := 7, readLines := [] }).2 rfl rfl rfl rfl⟩

/-- C6: for every completed execution the returned `ActionResult`'s
success flag is true iff the exit code is present and equal to zero. -/
theorem c6_success_iff_exit_zero (aid : String) (d : Nat) (w : PtyWorld)
    (r : ActionResult) (h : (executeRun aid d w).2 = Except.ok r) :
    (r.success = true ↔ r.exit_code = some 0) := by
  obtain ⟨o, sp, cr, wa, ec, rl⟩ := w
  cases o <;> cases sp <;> cases cr <;> cases wa <;>
    simp_all [executeRun, execute_with_pty]
  subst h
  simp [beq_iff_eq]

/-- Concrete instantiation of C6: a successful run exiting 0. -/
theorem c6_witness :
    (({ action_id := "a", exit_code := some 0, duration_ms := 3, success := true }
        : ActionResult).success = true ↔
      ({ action_id := "a", exit_code := some 0, duration_ms := 3, success := true }
        : ActionResult).exit_code = some 0) :=
  c6_success_iff_exit_zero "a" 3
    { openptyOk := true, spawnOk := true, cloneReaderOk := true, waitOk := true,
      exitStatus := 0, readLines := [] } _ (by rfl)

/-! ## Theorems: C3, the state store's update primitive -/

/-- C3 counterexample: in `StateStore::update`, when the mutator returns
a change notice the broadcast send is executed at position 2 of the
call's event trace, strictly before the write guard's release at
position 3 — i.e. inside the critical section, not after exclusive
access is released as claimed. -/
theorem c3_counterexample :
    StateStore.updateTrace true =
      [StoreEvent.acquireWrite, StoreEvent.applyMutator,
       StoreEvent.broadcastSend, StoreEvent.releaseWrite] ∧
    (StateStore.updateTrace true).indexOf StoreEvent.broadcastSend <
      (StateStore.updateTrace true).indexOf StoreEvent.releaseWrite := by
  constructor
  · rfl
  · decide

/-- C3 (amended): a change notice is published exactly when the mutator
returns one, and the send happens *inside* the critical section — after
the mutator is applied and strictly before the exclusive access is
released (the guard is dropped at end of scope, after the send). -/
theorem c3_amended_send_inside_critical_section (hasChange : Bool) :
    (StoreEvent.broadcastSend ∈ StateStore.updateTrace hasChange ↔ hasChange = true) ∧
    (hasChange = true →
      (StateStore.updateTrace hasChange).indexOf StoreEvent.applyMutator <
        (StateStore.updateTrace hasChange).indexOf StoreEvent.broadcastSend ∧
      (StateStore.updateTrace hasChange).indexOf StoreEvent.broadcastSend <
        (StateStore.updateTrace hasChange).indexOf StoreEvent.releaseWrite) := by
  cases hasChange <;> refine ⟨by decide, by decide⟩

/-- Concrete instantiation of the amended C3 theorem at
`hasChange = true`. -/
theorem c3_amended_witness :
    (StoreEvent.broadcastSend ∈ StateStore.updateTrace true ↔ true = true) ∧
    ((StateStore.updateTrace true).indexOf StoreEvent.applyMutator <
      (StateStore.updateTrace true).indexOf StoreEvent.broadcastSend ∧
    (StateStore.updateTrace true).indexOf StoreEvent.broadcastSend <
      (StateStore.updateTrace true).indexOf StoreEvent.releaseWrite) :=
  ⟨(c3_amended_send_inside_critical_section true).1,
    (c3_amended_send_inside_critical_section true).2 rfl⟩


/-! ## Theorems: C10, the output panel's bounded buffer -/

/-- `OutputPanelState::push` preserves the buffer bound and never
changes `max_lines`. -/
theorem outputPanel_push_bounded (st : OutputPanelState) (content : String)
    (stream : OutputStream) (now : Nat) (h : st.lines.length ≤ st.max_lines) :
    (st.push content stream now).lines.length ≤ (st.push content stream now).max_lines ∧
    (st.push content stream now).max_lines = st.max_lines := by
  simp only [OutputPanelState.push]
  refine ⟨?_, trivial⟩
  split_ifs with hc
  · simp only [List.length_tail, List.length_append, List.length_cons, List.length_nil]
    omega
  · simp only [List.length_append, List.length_cons, List.length_nil,
      not_lt, gt_iff_lt] at hc ⊢
    omega

/-- C10: the output panel's line buffer is bounded — after every
sequence of pushes starting from `OutputPanelState::new` at most 1000
(`max_lines`) lines are stored; when the bound is reached a push drops
the oldest line and appends the new one; and while `auto_scroll` is on
each push leaves `scroll_offset` at the index of the last stored
line. -/
theorem c10_output_buffer_bounded :
    (∀ inputs : List (String × OutputStream × Nat),
      (inputs.foldl (fun st i => st.push i.1 i.2.1 i.2.2) OutputPanelState.new).lines.length
        ≤ 1000) ∧
    (∀ (st : OutputPanelState) (content : String) (stream : OutputStream) (now : Nat),
      st.lines.length = st.max_lines → 1 ≤ st.max_lines →
      (st.push content stream now).lines =
        st.lines.tail ++ [{ content := content, timestamp := now, stream := stream }]) ∧
    (∀ (st : OutputPanelState) (content : String) (stream : OutputStream) (now : Nat),
      st.auto_scroll = true →
      (st.push content stream now).scroll_offset =
        (st.push content stream now).lines.length - 1) := by
  refine ⟨?_, ?_, ?_⟩
  · intro inputs
    have key : ∀ (st : OutputPanelState), st.lines.length ≤ st.max_lines →
        ((inputs.foldl (fun st i => st.push i.1 i.2.1 i.2.2) st).lines.length ≤
          (inputs.foldl (fun st i => st.push i.1 i.2.1 i.2.2) st).max_lines) ∧
        (inputs.foldl (fun st i => st.push i.1 i.2.1 i.2.2) st).max_lines = st.max_lines := by
      induction inputs with
      | nil => exact fun st h => ⟨h, rfl⟩
      | cons i tl ih =>
        intro st h
        have h1 := outputPanel_push_bounded st i.1 i.2.1 i.2.2 h
        have h2 := ih (st.push i.1 i.2.1 i.2.2) h1.1
        exact ⟨h2.1, h2.2.trans h1.2⟩
    have hk := key OutputPanelState.new (by simp [OutputPanelState.new])
    exact le_trans hk.1 (le_of_eq hk.2)
  · intro st content stream now hlen hmax
    obtain ⟨a, t, hat⟩ : ∃ a t, st.lines = a :: t := by
      cases hl : st.lines with
      | nil =>
        rw [hl] at hlen
        simp at hlen
        omega
      | cons a t => exact ⟨a, t, rfl⟩
    simp only [OutputPanelState.push]
    rw [if_pos]
    · rw [hat]
      simp
    · simp only [List.length_append, List.length_cons, List.length_nil, gt_iff_lt]
      omega
  · intro st content stream now hauto
    simp only [OutputPanelState.push, hauto, if_true]

/-- Concrete instantiation of C10's conditional parts: a buffer at its
bound drops its single old line on push, and an autoscrolling push
lands `scroll_offset` on the last line. -/
theorem c10_witness :
    (tinyFullOutputPanel.push "new" OutputStream.stdout 5).lines =
      tinyFullOutputPanel.lines.tail ++
        [{ content := "new", timestamp := 5, stream := OutputStream.stdout }] ∧
    (tinyFullOutputPanel.push "new" OutputStream.stdout 5).scroll_offset =
      (tinyFullOutputPanel.push "new" OutputStream.stdout 5).lines.length - 1 :=
  ⟨c10_output_buffer_bounded.2.1 tinyFullOutputPanel "new" OutputStream.stdout 5 rfl
      (by decide),
    c10_output_buffer_bounded.2.2 tinyFullOutputPanel "new" OutputStream.stdout 5 rfl⟩

/-! ## Theorems: C7/C8, the focus timer task -/

/-- Indefinite session (`total_seconds = 0`): every tick reports
`remaining = 0` and the loop never stops on its own. -/
theorem timer_task_indefinite (fuel elapsed : Nat) :
    timer_task 0 none elapsed fuel =
      (List.replicate fuel (FocusEvent.focusTimerTick 0), false) := by
  induction fuel generalizing elapsed with
  | zero => simp [timer_task]
  | succ n ih =>
    simp only [timer_task]
    simp [ih, List.replicate_succ]

/-- Finite countdown, never cancelled: from `elapsed < total` with
enough fuel, the remaining ticks report `total - (elapsed + i + 1)` and
the run ends with `FocusModeEnded`, stopped. -/
theorem timer_task_finite (total : Nat) :
    ∀ fuel elapsed, elapsed < total → total - elapsed ≤ fuel →
    timer_task total none elapsed fuel =
      (((List.range (total - elapsed)).map
          (fun i => FocusEvent.focusTimerTick (total - (elapsed + i + 1)))) ++
        [FocusEvent.focusModeEnded], true) := by
  intro fuel
  induction fuel with
  | zero =>
    intro elapsed h1 h2
    exfalso
    omega
  | succ n ih =>
    intro elapsed h1 h2
    have h0 : (total == 0) = false := by
      simp only [beq_eq_false_iff_ne, ne_eq]
      omega
    by_cases hend : total ≤ elapsed + 1
    · have hone : total - elapsed = 1 := by omega
      simp only [timer_task, h0, Bool.not_false, Bool.true_and, decide_eq_true_eq,
        Bool.false_eq_true, if_false, hone]
      rw [if_pos hend]
      simp [List.range_succ]
    · have hm : total - elapsed = (total - (elapsed + 1)) + 1 := by omega
      have hfe : (fun i => FocusEvent.focusTimerTick (total - (elapsed + 1 + i + 1))) =
          ((fun i => FocusEvent.focusTimerTick (total - (elapsed + i + 1))) ∘ Nat.succ) := by
        funext i
        simp only [Function.comp_apply]
        congr 1
        omega
      simp only [timer_task, h0, Bool.not_false, Bool.true_and, decide_eq_true_eq,
        Bool.false_eq_true, if_false, Option.map_none']
      rw [if_neg hend]
      rw [ih (elapsed + 1) (by omega) (by omega)]
      rw [hm, List.range_succ_eq_map]
      simp only [List.map_cons, List.map_map, List.cons_append, Prod.mk.injEq,
        List.cons.injEq]
      exact ⟨⟨trivial, by rw [hfe]⟩, trivial⟩

/-- C7: on each tick the focus timer emits `FocusTimerTick` with
`remaining = max(0, duration*60 − elapsed)` (where `elapsed` counts the
tick just processed) when `duration > 0`, and `remaining = 0` when
`duration = 0`; a finite countdown emits `FocusModeEnded` exactly when
`elapsed` reaches `duration*60` and then stops, while an indefinite one
(`duration = 0`) never auto-terminates. -/
theorem c7_timer_tick_semantics (d : Nat) :
    (d ≠ 0 → d * 60 < 2 ^ 32 → ∀ fuel, d * 60 ≤ fuel →
      timer_task (totalSecondsOf d) none 0 fuel =
        (((List.range (d * 60)).map
            (fun i => FocusEvent.focusTimerTick (d * 60 - (i + 1)))) ++
          [FocusEvent.focusModeEnded], true)) ∧
    (d = 0 → ∀ fuel, timer_task (totalSecondsOf d) none 0 fuel =
      (List.replicate fuel (FocusEvent.focusTimerTick 0), false)) := by
  constructor
  · intro hd hlt fuel hfuel
    have htot : totalSecondsOf d = d * 60 := by
      unfold totalSecondsOf
      omega
    rw [htot]
    have h := timer_task_finite (d * 60) fuel 0 (by omega) (by omega)
    simpa using h
  · intro hd fuel
    subst hd
    have htot : totalSecondsOf 0 = 0 := by
      unfold totalSecondsOf
      simp
    rw [htot]
    exact timer_task_indefinite fuel 0

/-- Concrete instantiation of C7: a 1-minute session run with exactly
enough fuel ends stopped, having emitted 60 ticks then
`FocusModeEnded`, the first tick reporting 59 seconds remaining. -/
theorem c7_witness :
    timer_task (totalSecondsOf 1) none 0 60 =
      (((List.range 60).map (fun i => FocusEvent.focusTimerTick (60 - (i + 1)))) ++
        [FocusEvent.focusModeEnded], true) := by
  have h := (c7_timer_tick_semantics 1).1 (by decide) (by norm_num) 60 (by norm_num)
  simpa using h

/-- A cancellation delivered after `k` ticks, with `elapsed + k` still
short of the finite total, means `FocusModeEnded` is never emitted. -/
theorem timer_task_cancelled_no_ended (total : Nat) :
    ∀ fuel k elapsed, elapsed + k < total →
      FocusEvent.focusModeEnded ∉ (timer_task total (some k) elapsed fuel).1 := by
  intro fuel
  induction fuel with
  | zero =>
    intro k elapsed h
    simp [timer_task]
  | succ n ih =>
    intro k elapsed h
    have h0 : (total == 0) = false := by
      simp only [beq_eq_false_iff_ne, ne_eq]
      omega
    cases k with
    | zero => simp [timer_task]
    | succ k =>
      have hend : ¬ total ≤ elapsed + 1 := by omega
      simp only [timer_task, h0, Bool.not_false, Bool.true_and, decide_eq_true_eq,
        Bool.false_eq_true, if_false, Option.map_some']
      rw [if_neg hend]
      simp only [List.mem_cons, not_or]
      refine ⟨by simp, ?_⟩
      have := ih k (elapsed + 1) (by omega)
      simpa using this

/-- A cancellation delivered after `k` ticks, within the fuel bound,
stops the loop. -/
theorem timer_task_cancelled_stops (total : Nat) :
    ∀ fuel k elapsed, elapsed + k < total → k < fuel →
      (timer_task total (some k) elapsed fuel).2 = true := by
  intro fuel
  induction fuel with
  | zero =>
    intro k elapsed h hk
    exact absurd hk (by omega)
  | succ n ih =>
    intro k elapsed h hk
    have h0 : (total == 0) = false := by
      simp only [beq_eq_false_iff_ne, ne_eq]
      omega
    cases k with
    | zero => simp [timer_task]
    | succ k =>
      have hend : ¬ total ≤ elapsed + 1 := by omega
      simp only [timer_task, h0, Bool.not_false, Bool.true_and, decide_eq_true_eq,
        Bool.false_eq_true, if_false, Option.map_some']
      rw [if_neg hend]
      have := ih k (elapsed + 1) (by omega) (by omega)
      simpa using this

/-- C8: if the cancellation signal (sent by the controller's `exit`) is
delivered before the finite countdown reaches its total — after `k`
ticks with `k < duration*60` — the timer task stops without ever
emitting `FocusModeEnded`. -/
theorem c8_cancel_before_expiry_no_ended (d k fuel : Nat) (hd : d ≠ 0)
    (hk : k < totalSecondsOf d) :
    FocusEvent.focusModeEnded ∉ (timer_task (totalSecondsOf d) (some k) 0 fuel).1 ∧
    (k < fuel → (timer_task (totalSecondsOf d) (some k) 0 fuel).2 = true) := by
  have _ := hd
  exact ⟨timer_task_cancelled_no_ended _ fuel k 0 (by omega),
    fun hf => timer_task_cancelled_stops _ fuel k 0 (by omega) hf⟩

/-- Concrete instantiation of C8: a 1-minute session cancelled after 3
ticks (out of 10 modelled), never emitting `FocusModeEnded` and
stopping. -/
theorem c8_witness :
    FocusEvent.focusModeEnded ∉ (timer_task (totalSecondsOf 1) (some 3) 0 10).1 ∧
    (3 < 10 → (timer_task (totalSecondsOf 1) (some 3) 0 10).2 = true) :=
  c8_cancel_before_expiry_no_ended 1 3 10 (by decide) (by norm_num [totalSecondsOf])

/-! ## Theorems: C2, the panel selection invariant -/

/-- Every navigation-key or filter-update operation preserves the
selection invariant. -/
theorem applyOp_preserves_selectionInv (s : AppNavState) (op : AppOp)
    (hop : op.isNavFilter = true) (h : selectionInv s.panels) :
    selectionInv ((applyOp s op).panels) := by
  unfold selectionInv at h ⊢
  cases op with
  | tab => exact h
  | backtab => exact h
  | navUp =>
    simp only [applyOp, navigate_up]
    cases s.focus_panel <;> split_ifs <;> dsimp only <;> omega
  | navDown =>
    simp only [applyOp, navigate_down]
    cases s.focus_panel <;> split_ifs <;> dsimp only <;> omega
  | paletteUp =>
    simp only [applyOp, palette_up]
    split_ifs with hc
    · refine ⟨?_, h.2.1, h.2.2.1, h.2.2.2⟩
      show s.panels.actions.selected_index - 1 ≤
        s.panels.actions.filtered_indices.length - 1
      have h1 := h.1
      omega
    · exact h
  | paletteDown =>
    simp only [applyOp, palette_down]
    split_ifs with hc
    · refine ⟨?_, h.2.1, h.2.2.1, h.2.2.2⟩
      show s.panels.actions.selected_index + 1 ≤
        s.panels.actions.filtered_indices.length - 1
      omega
    · exact h
  | paletteChar c =>
    exact ⟨Nat.zero_le _, h.2.1, h.2.2.1, h.2.2.2⟩
  | paletteBackspace =>
    exact ⟨Nat.zero_le _, h.2.1, h.2.2.1, h.2.2.2⟩
  | refreshDocker containers => simp [AppOp.isNavFilter] at hop
  | refreshPorts active conflicts => simp [AppOp.isNavFilter] at hop
  | detectProject actions envVars expected => simp [AppOp.isNavFilter] at hop

/-- Folding any sequence of navigation/filter operations preserves the
selection invariant. -/
theorem selectionInv_foldl_nav (ops : List AppOp) :
    ∀ s, (∀ op ∈ ops, op.isNavFilter = true) → selectionInv s.panels →
      selectionInv ((ops.foldl applyOp s).panels) := by
  induction ops with
  | nil => exact fun _ _ hs => hs
  | cons op tl ih =>
    intro s hall hs
    simp only [List.foldl_cons]
    exact ih _ (fun o ho => hall o (by simp [ho]))
      (applyOp_preserves_selectionInv s op (hall op (by simp)) hs)

/-- C2 counterexample: the claim quantifies over background refreshes
too.  Starting from the initial state: a docker refresh delivers two
containers, Tab focuses the docker panel, Down moves its selection to
index 1, and a second refresh shrinks the container list to empty.  The
code never clamps the index on refresh, so `selected_index = 1` with an
empty collection — violating `selected_index ≤ max(0, len−1)` and
`= 0 when empty`. -/
theorem c2_counterexample :
    (c2BadOps.foldl applyOp initialAppNavState).panels.docker.selected_index = 1 ∧
    (c2BadOps.foldl applyOp initialAppNavState).panels.docker.containers = [] ∧
    ¬ selectionInv (c2BadOps.foldl applyOp initialAppNavState).panels := by
  refine ⟨?_, ?_, ?_⟩ <;> decide

/-- C2 (amended): after every sequence of navigation-key and
filter-update operations from the initial state, every panel's
`selected_index` satisfies `0 ≤ selected_index ≤ max(0, len − 1)` and
is 0 when the collection is empty; a background refresh that replaces a
panel's collection with a shorter one can violate the bound, since the
refresh paths do not clamp the index. -/
theorem c2_amended_nav_keeps_selection_clamped (ops : List AppOp)
    (hops : ∀ op ∈ ops, op.isNavFilter = true) :
    selectionInv ((ops.foldl applyOp initialAppNavState).panels) :=
  selectionInv_foldl_nav ops initialAppNavState hops (by decide)

/-- Concrete instantiation of the amended C2 theorem: a short
navigation sequence from the initial state. -/
theorem c2_witness :
    selectionInv (([AppOp.navDown, AppOp.tab, AppOp.navUp, AppOp.backtab].foldl applyOp
      initialAppNavState).panels) :=
  c2_amended_nav_keeps_selection_clamped
    [AppOp.navDown, AppOp.tab, AppOp.navUp, AppOp.backtab] (by decide)
